import Mathlib

/-!
Verification of the ZeroClaw trust-boundary subsystem: autonomy policy
engine, pairing guard, credential vault, sandbox backend, and the
configuration validation / secret-handling pipeline.

Shallow embedding conventions:
- pure Rust functions become Lean functions on `String` / `List` / `Nat`;
- fallible Rust code (`anyhow::Result`, `io::Result`) becomes `Except String`;
- Rust `&mut` updates become explicit state passing (input value in,
  updated value out);
- a Rust panic is modelled as `Option.none`.

Definitions carrying a doc comment starting with `Modelled from the spec:`
embed components whose source file is not present in the repository
snapshot (only their callers and re-exports are); they follow the
specification text for that component. All other definitions are
translated directly from the Rust source, with the source path noted.
-/

namespace ZeroClaw

/- ────────────────────────────────────────────────────────────────
   Sandbox backend (src/security/traits.rs)
   ──────────────────────────────────────────────────────────────── -/

/-- Process command descriptor: program, arguments, environment
(mirrors the observable state of `std::process::Command`). -/
structure Command where
  program : String
  args : List String
  envs : List (String × String)
deriving Repr, DecidableEq

/-- The no-op sandbox backend `NoopSandbox` (src/security/traits.rs). -/
structure NoopSandbox
deriving Repr, DecidableEq

/-- `NoopSandbox::wrap_command` (src/security/traits.rs): returns
`Ok(())` and passes the command through unchanged.  The pair is
(result, command after the call). -/
def NoopSandbox.wrap_command (_s : NoopSandbox) (cmd : Command) :
    Except String Unit × Command :=
  (Except.ok (), cmd)

/-- `NoopSandbox::is_available` (src/security/traits.rs): always true. -/
def NoopSandbox.is_available (_s : NoopSandbox) : Bool :=
  true

/-- `NoopSandbox::name` (src/security/traits.rs). -/
def NoopSandbox.name (_s : NoopSandbox) : String :=
  "none"

/- ────────────────────────────────────────────────────────────────
   redact (src/security/mod.rs)
   ──────────────────────────────────────────────────────────────── -/

/-- Byte length of a string viewed as a list of chars, i.e. Rust
`str::len` (UTF-8 byte count). -/
def utf8Len (s : List Char) : Nat :=
  (s.map Char.utf8Size).sum

/-- Whether byte index `i` is a UTF-8 char boundary of `s`
(Rust `str::is_char_boundary`, which byte-index slicing checks). -/
def isCharBoundary : List Char → Nat → Bool
  | _, 0 => true
  | [], _ => false
  | c :: cs, i => if i < c.utf8Size then false else isCharBoundary cs (i - c.utf8Size)

/-- The characters making up the first `i` bytes of `s`; meaningful
when `isCharBoundary s i` holds. -/
def takeBytes : List Char → Nat → List Char
  | _, 0 => []
  | [], _ => []
  | c :: cs, i => if i < c.utf8Size then [] else c :: takeBytes cs (i - c.utf8Size)

/-- `redact` (src/security/mod.rs): if `value.len() <= 4` return
`"***"`, else return `&value[..4]` followed by `"***"`.  The byte
slice `&value[..4]` panics when byte 4 is not a char boundary;
a panic is modelled as `none`. -/
def redact (value : List Char) : Option (List Char) :=
  if utf8Len value ≤ 4 then
    some ("***".toList)
  else if isCharBoundary value 4 then
    some (takeBytes value 4 ++ "***".toList)
  else
    none

/- ────────────────────────────────────────────────────────────────
   Credential vault: SecretStore
   (src/security/secrets.rs is absent from the snapshot; only its
   re-export in src/security/mod.rs and its callers are present)
   ──────────────────────────────────────────────────────────────── -/

/-- Modelled from the spec: the structural marker carried by every
`SecretBlob` so that `is_encrypted` can classify a stored value
without decrypting it (spec section 3, "SecretBlob").  Secret strings
are represented as `List Char`. -/
def secretMarker : List Char := "enc:".toList

/-- Modelled from the spec: the Credential Vault `SecretStore`
(src/security/secrets.rs, absent).  `encrypt_enabled` is the
`secrets.encrypt` configuration flag passed to `SecretStore::new`
by the config subsystem. -/
structure SecretStore where
  encrypt_enabled : Bool
deriving Repr, DecidableEq

/-- Modelled from the spec: `SecretStore::is_encrypted` — a pure,
structural check (marker present), no decryption attempt
(spec section 4.3). -/
def SecretStore.is_encrypted (s : List Char) : Bool :=
  secretMarker.isPrefixOf s

/-- Modelled from the spec: `SecretStore::encrypt` — produces a
self-describing `SecretBlob`; when encryption is disabled by
configuration it degrades to the identity (spec section 4.3). -/
def SecretStore.encrypt (st : SecretStore) (s : List Char) : Except String (List Char) :=
  Except.ok (if st.encrypt_enabled then secretMarker ++ s else s)

/-- Modelled from the spec: `SecretStore::decrypt` — inverts
`encrypt`; when encryption is disabled by configuration it degrades
to the identity (spec section 4.3). -/
def SecretStore.decrypt (st : SecretStore) (s : List Char) : Except String (List Char) :=
  Except.ok
    (if st.encrypt_enabled then
      if SecretStore.is_encrypted s then s.drop secretMarker.length else s
    else s)

/- ────────────────────────────────────────────────────────────────
   Optional-secret helpers (src/config/schema.rs)
   ──────────────────────────────────────────────────────────────── -/

/-- `decrypt_optional_secret` (src/config/schema.rs): if the value is
present and `is_encrypted` classifies it as encrypted, replace it by
its decryption, propagating a decryption failure with context; a
plaintext or absent value passes through unchanged.  The store's two
operations are taken as parameters (`SecretStore` lives in a source
file absent from the snapshot); the in-place `&mut` update is
returned as the new value. -/
def decrypt_optional_secret {α : Type} (is_enc : α → Bool)
    (dec : α → Except String α) (field_name : String)
    (value : Option α) : Except String (Option α) :=
  match value with
  | some raw =>
    if is_enc raw then
      match dec raw with
      | Except.ok plain => Except.ok (some plain)
      | Except.error e => Except.error ("Failed to decrypt " ++ field_name ++ ": " ++ e)
    else
      Except.ok (some raw)
  | none => Except.ok none

/-- `encrypt_optional_secret` (src/config/schema.rs): if the value is
present and `is_encrypted` reports it is not already encrypted,
replace it by its encryption, propagating failure with context; an
already-encrypted or absent value passes through unchanged. -/
def encrypt_optional_secret {α : Type} (is_enc : α → Bool)
    (enc : α → Except String α) (field_name : String)
    (value : Option α) : Except String (Option α) :=
  match value with
  | some raw =>
    if !is_enc raw then
      match enc raw with
      | Except.ok blob => Except.ok (some blob)
      | Except.error e => Except.error ("Failed to encrypt " ++ field_name ++ ": " ++ e)
    else
      Except.ok (some raw)
  | none => Except.ok none

/- ────────────────────────────────────────────────────────────────
   Configuration schema and validation (src/config/schema.rs)
   ──────────────────────────────────────────────────────────────── -/

/-- `AutonomyLevel` (spec section 3; declared in the absent
src/security/policy.rs and referenced by `AutonomyConfig.level`). -/
inductive AutonomyLevel
  | read_only
  | supervised
  | full
deriving Repr, DecidableEq

/-- `AutonomyConfig` (src/config/schema.rs, `[autonomy]` section).
`u32` counters become `Nat`. -/
structure AutonomyConfig where
  level : AutonomyLevel
  workspace_only : Bool
  allowed_commands : List String
  forbidden_paths : List String
  max_actions_per_hour : Nat
  max_cost_per_day_cents : Nat
  require_approval_for_medium_risk : Bool
  block_high_risk_commands : Bool
  shell_env_passthrough : List String
  auto_approve : List String
  always_ask : List String
  allowed_roots : List String
  non_cli_excluded_tools : List String
deriving Repr, DecidableEq

/-- `default_auto_approve` (src/config/schema.rs). -/
def default_auto_approve : List String := ["file_read", "memory_recall"]

/-- `AutonomyConfig::default` (src/config/schema.rs). -/
def AutonomyConfig.default : AutonomyConfig :=
  { level := AutonomyLevel.supervised
    workspace_only := true
    allowed_commands := ["git", "npm", "cargo", "ls", "cat", "grep", "find",
      "echo", "pwd", "wc", "head", "tail", "date"]
    forbidden_paths := ["/etc", "/root", "/home", "/usr", "/bin", "/sbin",
      "/lib", "/opt", "/boot", "/dev", "/proc", "/sys", "/var", "/tmp",
      "~/.ssh", "~/.gnupg", "~/.aws", "~/.config"]
    max_actions_per_hour := 20
    max_cost_per_day_cents := 500
    require_approval_for_medium_risk := true
    block_high_risk_commands := true
    shell_env_passthrough := []
    auto_approve := default_auto_approve
    always_ask := []
    allowed_roots := []
    non_cli_excluded_tools := [] }

/-- `is_valid_env_var_name` (src/config/schema.rs): first char ASCII
alphabetic or underscore, remaining chars ASCII alphanumeric or
underscore. -/
def is_valid_env_var_name (name : String) : Bool :=
  match name.toList with
  | [] => false
  | first :: rest =>
    (first.isAlpha || first == '_') && rest.all (fun ch => ch.isAlphanum || ch == '_')

/-- `GatewayConfig` (src/config/schema.rs, `[gateway]` section),
restricted to the fields this subsystem consumes. -/
structure GatewayConfig where
  port : Nat
  host : String
  require_pairing : Bool
  allow_public_bind : Bool
  paired_tokens : List String
deriving Repr, DecidableEq

/-- `GatewayConfig::default` (src/config/schema.rs). -/
def GatewayConfig.default : GatewayConfig :=
  { port := 42617
    host := "127.0.0.1"
    require_pairing := true
    allow_public_bind := false
    paired_tokens := [] }

/-- `SecretsConfig` (src/config/schema.rs, `[secrets]` section);
`encrypt` defaults to true. -/
structure SecretsConfig where
  encrypt : Bool
deriving Repr, DecidableEq

/-- `ProxyScope` (src/config/schema.rs). -/
inductive ProxyScope
  | environment
  | zeroclaw
  | services
deriving Repr, DecidableEq

/-- `ProxyConfig` (src/config/schema.rs, `[proxy]` section). -/
structure ProxyConfig where
  enabled : Bool
  http_proxy : Option String
  https_proxy : Option String
  all_proxy : Option String
  no_proxy : List String
  scope : ProxyScope
  services : List String
deriving Repr, DecidableEq

/-- `ProxyConfig::default` (src/config/schema.rs). -/
def ProxyConfig.default : ProxyConfig :=
  { enabled := false
    http_proxy := none
    https_proxy := none
    all_proxy := none
    no_proxy := []
    scope := ProxyScope.zeroclaw
    services := [] }

/-- Rust `str::trim` (whitespace stripped from both ends), defined
structurally so that concrete configurations evaluate inside the
kernel. -/
def trim_ascii (s : String) : String :=
  String.mk (((s.toList.dropWhile Char.isWhitespace).reverse.dropWhile
    Char.isWhitespace).reverse)

/-- Rust `str::split(',')` on the character list, structurally. -/
def split_comma_aux : List Char → List Char → List String
  | [], acc => [String.mk acc.reverse]
  | c :: rest, acc =>
    if c == ',' then String.mk acc.reverse :: split_comma_aux rest []
    else split_comma_aux rest (c :: acc)

/-- Rust `str::split(',')`. -/
def split_commas (s : String) : List String :=
  split_comma_aux s.toList []

/-- Lexicographic comparison of strings by code point, the order used
by Rust `sort_unstable` on strings. -/
def chars_le : List Char → List Char → Bool
  | [], _ => true
  | _ :: _, [] => false
  | a :: as, b :: bs =>
    if a.toNat < b.toNat then true
    else if b.toNat < a.toNat then false
    else chars_le as bs

/-- Sorted insertion for `sort_strings`. -/
def insert_le (a : String) : List String → List String
  | [] => [a]
  | b :: rest => if chars_le a.toList b.toList then a :: b :: rest else b :: insert_le a rest

/-- Rust `sort_unstable` on strings (insertion sort; same sorted
result, structurally recursive). -/
def sort_strings : List String → List String
  | [] => []
  | x :: xs => insert_le x (sort_strings xs)

/-- Rust `Vec::dedup`: remove consecutive duplicates. -/
def dedup_consecutive : List String → List String
  | [] => []
  | [a] => [a]
  | a :: b :: rest =>
    if a == b then dedup_consecutive (b :: rest)
    else a :: dedup_consecutive (b :: rest)

/-- `normalize_proxy_url_option` (src/config/schema.rs): trim, drop
empty. -/
def normalize_proxy_url_option (raw : Option String) : Option String :=
  match raw with
  | none => none
  | some v =>
    let value := trim_ascii v
    if value == "" then none else some value

/-- `normalize_comma_values` (src/config/schema.rs): split each entry
on commas, trim, drop empties, sort, dedup. -/
def normalize_comma_values (values : List String) : List String :=
  let output := (values.flatMap (fun value => (split_commas value).map trim_ascii)).filter
    (fun part => !(part == ""))
  dedup_consecutive (sort_strings output)

/-- Rust `str::to_ascii_lowercase` (ASCII-only lowering, matching
Lean's `Char.toLower`). -/
def ascii_lower (s : String) : String :=
  String.mk (s.toList.map Char.toLower)

/-- Rust `str::eq_ignore_ascii_case`. -/
def eq_ignore_ascii_case (a b : String) : Bool :=
  ascii_lower a == ascii_lower b

/-- `normalize_service_list` (src/config/schema.rs). -/
def normalize_service_list (values : List String) : List String :=
  dedup_consecutive (sort_strings ((normalize_comma_values values).map ascii_lower))

/-- `SUPPORTED_PROXY_SERVICE_KEYS` (src/config/schema.rs). -/
def supported_proxy_service_keys : List String :=
  ["provider.openai", "channel.whatsapp", "memory.embeddings"]

/-- `SUPPORTED_PROXY_SERVICE_SELECTORS` (src/config/schema.rs). -/
def supported_proxy_service_selectors : List String :=
  ["provider.*", "channel.*", "memory.*"]

/-- `is_supported_proxy_service_selector` (src/config/schema.rs). -/
def is_supported_proxy_service_selector (selector : String) : Bool :=
  supported_proxy_service_keys.any (fun known => eq_ignore_ascii_case known selector)
    || supported_proxy_service_selectors.any (fun known => eq_ignore_ascii_case known selector)

/-- `validate_proxy_url` (src/config/schema.rs).  URL parsing is done
by the external `reqwest::Url` library; it is abstracted as the
parameter `parseUrl`, returning `(scheme, host)` on success. -/
def validate_proxy_url (parseUrl : String → Option (String × Option String))
    (field : String) (url : String) : Except String Unit :=
  match parseUrl url with
  | none => Except.error ("Invalid " ++ field ++ " URL: " ++ url ++ " is not a valid URL")
  | some (scheme, host) =>
    if scheme = "http" ∨ scheme = "https" ∨ scheme = "socks5" ∨ scheme = "socks5h" then
      match host with
      | some _ => Except.ok ()
      | none => Except.error ("Invalid " ++ field ++ " URL: host is required")
    else
      Except.error ("Invalid " ++ field ++ " URL scheme. Allowed: http, https, socks5, socks5h")

/-- `ProxyConfig::has_any_proxy_url` (src/config/schema.rs). -/
def ProxyConfig.has_any_proxy_url (p : ProxyConfig) : Bool :=
  (normalize_proxy_url_option p.http_proxy).isSome
    || (normalize_proxy_url_option p.https_proxy).isSome
    || (normalize_proxy_url_option p.all_proxy).isSome

/-- `ProxyConfig::normalized_services` (src/config/schema.rs). -/
def ProxyConfig.normalized_services (p : ProxyConfig) : List String :=
  normalize_service_list p.services

/-- One iteration of the proxy-URL field loop in
`ProxyConfig::validate` (src/config/schema.rs): a configured,
non-empty URL is validated; an absent or blank one is skipped. -/
def proxy_url_field_check (parseUrl : String → Option (String × Option String))
    (field : String) (value : Option String) : Except String Unit :=
  match normalize_proxy_url_option value with
  | some url => validate_proxy_url parseUrl field url
  | none => Except.ok ()

/-- The selector loop of `ProxyConfig::validate`
(src/config/schema.rs): first unsupported selector, if any. -/
def find_unsupported_selector (l : List String) : Option String :=
  l.find? (fun selector => !is_supported_proxy_service_selector selector)

/-- `ProxyConfig::validate` (src/config/schema.rs): check each
configured proxy URL, reject unsupported service selectors, require a
URL when enabled, and require a non-empty service list when enabled
with scope `services`; each check bails out on the first failure. -/
def ProxyConfig.validate (parseUrl : String → Option (String × Option String))
    (p : ProxyConfig) : Except String Unit :=
  match proxy_url_field_check parseUrl "http_proxy" p.http_proxy with
  | Except.error e => Except.error e
  | Except.ok () =>
  match proxy_url_field_check parseUrl "https_proxy" p.https_proxy with
  | Except.error e => Except.error e
  | Except.ok () =>
  match proxy_url_field_check parseUrl "all_proxy" p.all_proxy with
  | Except.error e => Except.error e
  | Except.ok () =>
  match find_unsupported_selector p.normalized_services with
  | some selector => Except.error ("Unsupported proxy service selector " ++ selector)
  | none =>
  if p.enabled && !p.has_any_proxy_url then
    Except.error "Proxy is enabled but no proxy URL is configured. Set at least one of http_proxy, https_proxy, or all_proxy"
  else if p.enabled && p.scope == ProxyScope.services && p.normalized_services.isEmpty then
    Except.error "proxy.scope services requires a non-empty proxy.services list when proxy is enabled"
  else Except.ok ()

/-- `Config` (src/config/schema.rs), restricted to the fields this
subsystem consumes.  The secret `api_key` is represented as a list of
chars (the secret-string representation used by the vault model). -/
structure Config where
  api_key : Option (List Char)
  autonomy : AutonomyConfig
  gateway : GatewayConfig
  secrets : SecretsConfig
  proxy : ProxyConfig
deriving Repr, DecidableEq

/-- `Config::default` (src/config/schema.rs) on the embedded fields. -/
def Config.default : Config :=
  { api_key := none
    autonomy := AutonomyConfig.default
    gateway := GatewayConfig.default
    secrets := { encrypt := true }
    proxy := ProxyConfig.default }

/-- The `shell_env_passthrough` loop of `Config::validate`
(src/config/schema.rs): bail with an error on the first entry failing
`is_valid_env_var_name`. -/
def validate_env_passthrough (l : List String) : Except String Unit :=
  match l.find? (fun env_name => !is_valid_env_var_name env_name) with
  | some bad =>
    Except.error ("autonomy.shell_env_passthrough is invalid (" ++ bad ++ "); expected a name of ASCII letters, digits and underscores not starting with a digit")
  | none => Except.ok ()

/-- `Config::validate` (src/config/schema.rs): reject an empty
gateway host, `autonomy.max_actions_per_hour == 0`, any invalid
`shell_env_passthrough` entry, then delegate to `proxy.validate`;
first failure aborts. -/
def Config.validate (parseUrl : String → Option (String × Option String))
    (config : Config) : Except String Unit :=
  if trim_ascii config.gateway.host == "" then
    Except.error "gateway.host must not be empty"
  else if config.autonomy.max_actions_per_hour = 0 then
    Except.error "autonomy.max_actions_per_hour must be greater than 0"
  else
    match validate_env_passthrough config.autonomy.shell_env_passthrough with
    | Except.error e => Except.error e
    | Except.ok () => config.proxy.validate parseUrl

/-- Decrypt-and-validate tail of `Config::load_or_init`
(src/config/schema.rs): after parsing an existing config file, the
api key is decrypted via `decrypt_optional_secret`, environment
overrides are applied (`apply_env_overrides` reads the process
environment and is abstracted as `envOverride`), then `validate`
runs; any error aborts the load. -/
def load_decrypt_validate (is_enc : List Char → Bool)
    (dec : List Char → Except String (List Char))
    (envOverride : Config → Config)
    (parseUrl : String → Option (String × Option String))
    (config : Config) : Except String Config :=
  match decrypt_optional_secret is_enc dec "config.api_key" config.api_key with
  | Except.error e => Except.error e
  | Except.ok key =>
    let config := envOverride { config with api_key := key }
    match config.validate parseUrl with
    | Except.error e => Except.error e
    | Except.ok () => Except.ok config

/-- Encryption step of `Config::save` (src/config/schema.rs): the
config is cloned and its api key passed through
`encrypt_optional_secret` before serialization; the result is the
config as stored on disk. -/
def save_encrypt_api_key (is_enc : List Char → Bool)
    (enc : List Char → Except String (List Char))
    (config : Config) : Except String Config :=
  match encrypt_optional_secret is_enc enc "config.api_key" config.api_key with
  | Except.error e => Except.error e
  | Except.ok key => Except.ok { config with api_key := key }

/- ────────────────────────────────────────────────────────────────
   Pairing guard and gateway authentication
   (PairingGuard lives in src/security/pairing.rs, absent from the
   snapshot; the gateway handlers are src/gateway/api.rs)
   ──────────────────────────────────────────────────────────────── -/

/-- Modelled from the spec: the Pairing Guard (spec section 4.4,
src/security/pairing.rs absent).  `require_pairing` is config-driven
(`gateway.require_pairing`, default true); `paired_tokens` is the
in-memory paired token set. -/
structure PairingGuard where
  require_pairing : Bool
  paired_tokens : List String
deriving Repr, DecidableEq

/-- Modelled from the spec: `PairingGuard::is_authenticated` — true
iff the token is non-empty and in the paired set (spec section 4.4). -/
def PairingGuard.is_authenticated (g : PairingGuard) (token : String) : Bool :=
  !(token == "") && g.paired_tokens.contains token

/-- Modelled from the spec: `PairingGuard::is_paired` — true iff at
least one token has been paired (spec section 4.4). -/
def PairingGuard.is_paired (g : PairingGuard) : Bool :=
  !g.paired_tokens.isEmpty

/-- `extract_bearer_token` (src/gateway/api.rs): the value of the
Authorization header with the `Bearer ` prefix stripped; `none` when
the header is absent or lacks the prefix.  The header map is
represented by the Authorization value it may carry. -/
def extract_bearer_token (authorization : Option String) : Option String :=
  match authorization with
  | none => none
  | some v =>
    if ("Bearer ".toList).isPrefixOf v.toList then
      some (String.mk (v.toList.drop 7))
    else none

/-- HTTP error response produced by a failed auth check
(status code and JSON error message). -/
structure ApiError where
  status : Nat
  message : String
deriving Repr, DecidableEq

/-- The 401 response built by `require_auth` (src/gateway/api.rs). -/
def unauthorized_error : ApiError :=
  { status := 401
    message := "Unauthorized — pair first via POST /pair, then send Authorization: Bearer <token>" }

/-- `require_auth` (src/gateway/api.rs): when pairing is not
required, pass; otherwise take the presented bearer token (empty
string when absent) and pass iff `is_authenticated` holds, else
return the 401 error. -/
def require_auth (pairing : PairingGuard) (authorization : Option String) :
    Except ApiError Unit :=
  if !pairing.require_pairing then Except.ok ()
  else
    let token := (extract_bearer_token authorization).getD ""
    if pairing.is_authenticated token then Except.ok ()
    else Except.error unauthorized_error

/-- Outcome of an `/api/*` handler: either the 401 failure from the
auth check or the success body. -/
inductive ApiResponse (β : Type)
  | success (body : β)
  | failure (status : Nat) (message : String)
deriving Repr, DecidableEq

/-- Common shape of every `/api/*` handler (src/gateway/api.rs,
`handle_api_status` and the six other handlers): `require_auth` runs
first; on error its 401 response is returned and the handler body is
never evaluated. -/
def run_api_handler {β : Type} (pairing : PairingGuard) (authorization : Option String)
    (handler_body : Unit → β) : ApiResponse β :=
  match require_auth pairing authorization with
  | Except.error e => ApiResponse.failure e.status e.message
  | Except.ok () => ApiResponse.success (handler_body ())

/- ────────────────────────────────────────────────────────────────
   Autonomy policy engine
   (src/security/policy.rs is absent from the snapshot; modelled
   from spec section 4.1, over the AutonomyConfig of
   src/config/schema.rs)
   ──────────────────────────────────────────────────────────────── -/

/-- Modelled from the spec: per-action risk tier (spec section 3). -/
inductive RiskTier
  | low
  | medium
  | high
deriving Repr, DecidableEq

/-- Canonicalized absolute path, as its component list.  Symlink and
dot-dot resolution happens upstream (OS canonicalization); the policy
engine only ever sees resolved paths (spec section 3,
"PathBoundary"). -/
abbrev CanonPath := List String

/-- Modelled from the spec: `ActionRequest` (spec section 3). -/
structure ActionRequest where
  tool_name : String
  risk_tier : RiskTier
  resolved_path : Option CanonPath
  command_name : Option String
  estimated_cost_cents : Nat
deriving Repr, DecidableEq

/-- Modelled from the spec: `PolicyDecision` (spec section 3). -/
inductive PolicyDecision
  | allow
  | require_approval (reason : String)
  | deny (reason : String)
deriving Repr, DecidableEq

/-- Whether a decision is a Deny. -/
def PolicyDecision.isDeny : PolicyDecision → Bool
  | PolicyDecision.deny _ => true
  | _ => false

/-- Modelled from the spec: `BudgetState` (spec section 3) — hourly
action counter and daily cost-cents counter, owned by the policy
engine. -/
structure BudgetState where
  actions_this_hour : Nat
  cost_today_cents : Nat
deriving Repr, DecidableEq

/-- Modelled from the spec: `PathBoundary` (spec section 3), derived
from `workspace_only` / `allowed_roots` / `forbidden_paths` into
canonicalized absolute prefixes. -/
structure PathBoundary where
  workspace_root : CanonPath
  allowed_roots : List CanonPath
  forbidden_paths : List CanonPath
deriving Repr, DecidableEq

/-- Is `p` equal to or a descendant of `root` (component-prefix
test on canonicalized paths)? -/
def is_descendant (root p : CanonPath) : Bool :=
  root.isPrefixOf p

/-- Modelled from the spec: a path is permitted iff under the
workspace root or an allowed root, and under none of the forbidden
prefixes, checked strictly on the canonicalized path (spec
section 3, "PathBoundary"). -/
def path_permitted (pb : PathBoundary) (p : CanonPath) : Bool :=
  (is_descendant pb.workspace_root p || pb.allowed_roots.any (fun r => is_descendant r p))
    && !(pb.forbidden_paths.any (fun f => is_descendant f p))

/-- Modelled from the spec: checks 1-4 of `evaluate` (spec
section 4.1) — level gate, path/command validation, high-risk block,
approval gate — returning the short-circuit decision, or `none` to
proceed to the budget check. -/
def pre_budget_gate (cfg : AutonomyConfig) (pb : PathBoundary) (req : ActionRequest) :
    Option PolicyDecision :=
  if cfg.level == AutonomyLevel.read_only && !(req.risk_tier == RiskTier.low) then
    some (PolicyDecision.deny "autonomy level read_only denies actions above low risk")
  else if (match req.resolved_path with
      | some p => !path_permitted pb p
      | none => false) then
    some (PolicyDecision.deny "path outside the permitted boundary")
  else if (match req.command_name with
      | some c => !cfg.allowed_commands.contains c && !cfg.auto_approve.contains req.tool_name
      | none => false) then
    some (PolicyDecision.deny "command not in the allowlist")
  else if req.risk_tier == RiskTier.high && cfg.block_high_risk_commands then
    some (PolicyDecision.deny "high-risk commands are blocked")
  else if !(cfg.level == AutonomyLevel.full) &&
      (cfg.always_ask.contains req.tool_name ||
        (req.risk_tier == RiskTier.medium && cfg.require_approval_for_medium_risk &&
          !cfg.auto_approve.contains req.tool_name &&
          cfg.level == AutonomyLevel.supervised)) then
    some (PolicyDecision.require_approval "approval required for this action")
  else
    none

/-- Modelled from the spec: `evaluate(request, session)` (spec
section 4.1): run the ordered checks, short-circuiting on the first
non-Allow; then the budget check — speculatively increment the hourly
counter, Deny and roll back if it would exceed
`max_actions_per_hour`; speculatively add the cost, Deny and roll
back if it would exceed `max_cost_per_day_cents`; otherwise commit
both and Allow.  Budget state is passed in and returned explicitly. -/
def evaluate (cfg : AutonomyConfig) (pb : PathBoundary) (req : ActionRequest)
    (budget : BudgetState) : PolicyDecision × BudgetState :=
  match pre_budget_gate cfg pb req with
  | some decision => (decision, budget)
  | none =>
    let hourly := budget.actions_this_hour + 1
    if cfg.max_actions_per_hour < hourly then
      (PolicyDecision.deny "hourly action budget exhausted", budget)
    else
      let cost := budget.cost_today_cents + req.estimated_cost_cents
      if cfg.max_cost_per_day_cents < cost then
        (PolicyDecision.deny "daily cost budget exhausted", budget)
      else
        (PolicyDecision.allow, BudgetState.mk hourly cost)

end ZeroClaw

deriving instance DecidableEq for Except

namespace ZeroClaw

/- Sanity examples for the embedding of `redact`, matching the unit
tests in src/security/mod.rs. -/

example : redact ("abcdefgh".toList) = some ("abcd***".toList) := by decide

example : redact ("ab".toList) = some ("***".toList) := by decide

example : redact ("12345".toList) = some ("1234***".toList) := by decide

/-- C9: `NoopSandbox.is_available` returns true, and for every process
command, `wrap_command` returns `Ok` while leaving the command
descriptor (program, arguments, environment) unchanged. -/
theorem noop_sandbox_always_available_and_identity (s : NoopSandbox) (cmd : Command) :
    s.is_available = true ∧ s.wrap_command cmd = (Except.ok (), cmd) :=
  ⟨rfl, rfl⟩

/-- C10: `redact` panics on the 5-byte input "abcé": the byte length
is 5 > 4, but byte index 4 falls inside the two-byte encoding of 'é',
so the slice `&value[..4]` is not on a char boundary and the code
panics (modelled as `none`) instead of returning a redacted string. -/
theorem redact_panics_on_multibyte_input :
    redact ("abcé".toList) = none ∧ 4 < utf8Len ("abcé".toList) := by
  constructor
  · decide
  · decide

/- Helper lemmas about the vault model, shared across claims. -/

/-- Any blob produced by prepending the structural marker is
classified as encrypted. -/
theorem is_encrypted_marker_append (s : List Char) :
    SecretStore.is_encrypted (secretMarker ++ s) = true := by
  simp [SecretStore.is_encrypted, List.isPrefixOf_iff_prefix, List.prefix_append]

/-- `encrypt_optional_secret` over the vault model is idempotent on
the stored value. -/
theorem encrypt_optional_secret_idem (st : SecretStore) (field_name : String)
    (v v' : Option (List Char))
    (h : encrypt_optional_secret SecretStore.is_encrypted st.encrypt field_name v
      = Except.ok v') :
    encrypt_optional_secret SecretStore.is_encrypted st.encrypt field_name v'
      = Except.ok v' := by
  cases v with
  | none =>
    simp [encrypt_optional_secret] at h
    subst h
    simp [encrypt_optional_secret]
  | some raw =>
    by_cases hE : SecretStore.is_encrypted raw
    · simp [encrypt_optional_secret, hE] at h
      subst h
      simp [encrypt_optional_secret, hE]
    · cases hEn : st.encrypt_enabled
      · simp [encrypt_optional_secret, hE, SecretStore.encrypt, hEn] at h
        subst h
        simp [encrypt_optional_secret, hE, SecretStore.encrypt, hEn]
      · simp [encrypt_optional_secret, hE, SecretStore.encrypt, hEn] at h
        subst h
        simp [encrypt_optional_secret, is_encrypted_marker_append]

/-- With encryption enabled, the value stored by
`encrypt_optional_secret` over the vault model is always classified
as encrypted. -/
theorem encrypt_optional_secret_never_plain (st : SecretStore) (field_name : String)
    (v : Option (List Char)) (key : List Char)
    (hEn : st.encrypt_enabled = true)
    (h : encrypt_optional_secret SecretStore.is_encrypted st.encrypt field_name v
      = Except.ok (some key)) :
    SecretStore.is_encrypted key = true := by
  cases v with
  | none => simp [encrypt_optional_secret] at h
  | some raw =>
    by_cases hE : SecretStore.is_encrypted raw
    · simp [encrypt_optional_secret, hE] at h
      subst h
      exact hE
    · simp [encrypt_optional_secret, hE, SecretStore.encrypt, hEn] at h
      subst h
      exact is_encrypted_marker_append raw

/-- C5 counterexample: with encryption disabled by configuration,
`encrypt` is the identity, so `is_encrypted (encrypt "x")` is false,
not true as the claim requires in the disabled case. -/
theorem secret_roundtrip_claim_counterexample :
    (SecretStore.mk false).encrypt ("x".toList) = Except.ok ("x".toList) ∧
    SecretStore.is_encrypted ("x".toList) = false := by
  constructor
  · rfl
  · decide

/-- C5 (amended): `decrypt (encrypt s) = s` for every s in both
modes; with encryption enabled, `encrypt` produces a marker-bearing
blob that `is_encrypted` classifies as encrypted; with encryption
disabled, `encrypt` and `decrypt` are the identity; and `is_encrypted`
reports false for every plaintext not bearing the structural
marker. -/
theorem secret_store_vault_invariants (st : SecretStore) (s : List Char) :
    (st.encrypt s).bind st.decrypt = Except.ok s ∧
    (st.encrypt_enabled = true →
      st.encrypt s = Except.ok (secretMarker ++ s) ∧
      SecretStore.is_encrypted (secretMarker ++ s) = true) ∧
    (st.encrypt_enabled = false →
      st.encrypt s = Except.ok s ∧ st.decrypt s = Except.ok s) ∧
    (secretMarker.isPrefixOf s = false → SecretStore.is_encrypted s = false) := by
  refine ⟨?_, ?_, ?_, ?_⟩
  · cases h : st.encrypt_enabled
    · simp [SecretStore.encrypt, SecretStore.decrypt, h, Except.bind]
    · simp [SecretStore.encrypt, SecretStore.decrypt, h, Except.bind,
        is_encrypted_marker_append, List.drop_left]
  · intro h
    exact ⟨by simp [SecretStore.encrypt, h], is_encrypted_marker_append s⟩
  · intro h
    exact ⟨by simp [SecretStore.encrypt, h], by simp [SecretStore.decrypt, h]⟩
  · intro h
    simp [SecretStore.is_encrypted, h]

/-- C5 witness: the amended invariants evaluated at the concrete
secret "k", in both the enabled and the disabled store. -/
theorem secret_store_vault_invariants_witness :
    ((SecretStore.mk true).encrypt ("k".toList)).bind (SecretStore.mk true).decrypt
      = Except.ok ("k".toList) ∧
    SecretStore.is_encrypted (secretMarker ++ "k".toList) = true ∧
    (SecretStore.mk false).encrypt ("k".toList) = Except.ok ("k".toList) ∧
    SecretStore.is_encrypted ("k".toList) = false :=
  ⟨(secret_store_vault_invariants ⟨true⟩ ("k".toList)).1,
   ((secret_store_vault_invariants ⟨true⟩ ("k".toList)).2.1 rfl).2,
   ((secret_store_vault_invariants ⟨false⟩ ("k".toList)).2.2.1 rfl).1,
   (secret_store_vault_invariants ⟨true⟩ ("k".toList)).2.2.2 (by decide)⟩

/-- C6: if the stored api key is classified as encrypted and
decryption fails on it, the load pipeline of `Config::load_or_init`
returns the decryption error (with context) and aborts; the secret is
never treated as absent or defaulted. -/
theorem load_aborts_on_undecryptable_secret
    (is_enc : List Char → Bool) (dec : List Char → Except String (List Char))
    (envOverride : Config → Config)
    (parseUrl : String → Option (String × Option String))
    (config : Config) (raw : List Char) (e : String)
    (hkey : config.api_key = some raw)
    (henc : is_enc raw = true)
    (hdec : dec raw = Except.error e) :
    load_decrypt_validate is_enc dec envOverride parseUrl config =
      Except.error ("Failed to decrypt config.api_key: " ++ e) := by
  simp [load_decrypt_validate, decrypt_optional_secret, hkey, henc, hdec]

/-- C6 witness: a concrete config whose api key is classified
encrypted but undecryptable aborts the load with the decrypt error. -/
theorem load_aborts_on_undecryptable_secret_witness :
    load_decrypt_validate (fun _ => true) (fun _ => Except.error "corrupted") id
      (fun _ => none) { Config.default with api_key := some ("enc:x".toList) } =
      Except.error ("Failed to decrypt config.api_key: " ++ "corrupted") :=
  load_aborts_on_undecryptable_secret _ _ _ _ _ _ _ rfl rfl rfl

/-- C7: `encrypt_optional_secret` encrypts only values `is_encrypted`
reports as not already encrypted, `decrypt_optional_secret` decrypts
only values classified as encrypted, the save step of `Config::save`
is idempotent on the stored api-key value, and with encryption
enabled a present api key is always stored classified-encrypted,
never as plaintext. -/
theorem save_encrypts_once_and_is_idempotent (st : SecretStore) :
    (∀ (is_enc : List Char → Bool) (enc : List Char → Except String (List Char))
        (field_name : String) (raw : List Char), is_enc raw = true →
        encrypt_optional_secret is_enc enc field_name (some raw) = Except.ok (some raw)) ∧
    (∀ (is_enc : List Char → Bool) (dec : List Char → Except String (List Char))
        (field_name : String) (raw : List Char), is_enc raw = false →
        decrypt_optional_secret is_enc dec field_name (some raw) = Except.ok (some raw)) ∧
    (∀ config stored : Config,
        save_encrypt_api_key SecretStore.is_encrypted st.encrypt config = Except.ok stored →
        save_encrypt_api_key SecretStore.is_encrypted st.encrypt stored = Except.ok stored) ∧
    (st.encrypt_enabled = true →
      ∀ (config stored : Config) (key : List Char),
        save_encrypt_api_key SecretStore.is_encrypted st.encrypt config = Except.ok stored →
        stored.api_key = some key → SecretStore.is_encrypted key = true) := by
  refine ⟨?_, ?_, ?_, ?_⟩
  · intro is_enc enc field_name raw h
    simp [encrypt_optional_secret, h]
  · intro is_enc dec field_name raw h
    simp [decrypt_optional_secret, h]
  · intro config stored hsave
    cases hv : encrypt_optional_secret SecretStore.is_encrypted st.encrypt
      "config.api_key" config.api_key with
    | error e => simp [save_encrypt_api_key, hv] at hsave
    | ok key =>
      simp [save_encrypt_api_key, hv] at hsave
      subst hsave
      simp [save_encrypt_api_key, encrypt_optional_secret_idem st _ _ _ hv]
  · intro hEn config stored key hsave hkey
    cases hv : encrypt_optional_secret SecretStore.is_encrypted st.encrypt
      "config.api_key" config.api_key with
    | error e => simp [save_encrypt_api_key, hv] at hsave
    | ok v =>
      simp [save_encrypt_api_key, hv] at hsave
      subst hsave
      simp at hkey
      subst hkey
      exact encrypt_optional_secret_never_plain st _ _ _ hEn hv

/-- C7 witness: saving a plaintext key with encryption enabled stores
the marker-bearing blob; saving the stored config again leaves it
unchanged and the stored key is classified encrypted. -/
theorem save_encrypts_once_and_is_idempotent_witness :
    save_encrypt_api_key SecretStore.is_encrypted (SecretStore.mk true).encrypt
      { Config.default with api_key := some ("enc:k".toList) } =
      Except.ok { Config.default with api_key := some ("enc:k".toList) } ∧
    SecretStore.is_encrypted ("enc:k".toList) = true := by
  constructor
  · exact (save_encrypts_once_and_is_idempotent ⟨true⟩).2.2.1
      { Config.default with api_key := some ("k".toList) }
      { Config.default with api_key := some ("enc:k".toList) } (by decide)
  · exact (save_encrypts_once_and_is_idempotent ⟨true⟩).2.2.2 rfl
      { Config.default with api_key := some ("k".toList) }
      { Config.default with api_key := some ("enc:k".toList) } ("enc:k".toList)
      (by decide) rfl

/-- C8 counterexample: a configuration with
`autonomy.max_cost_per_day_cents = 0` (all other fields default)
passes `Config::validate`, so a zero daily cost budget is not
rejected. -/
theorem validate_zero_cost_counterexample :
    Config.validate (fun _ => none)
      { Config.default with
          autonomy := { AutonomyConfig.default with max_cost_per_day_cents := 0 } } =
      Except.ok () := by decide

/-- C8 (amended): `Config::validate` returns an error for every
configuration with `autonomy.max_actions_per_hour == 0` and for every
configuration containing an invalid `shell_env_passthrough` entry;
it does not check `max_cost_per_day_cents`. -/
theorem validate_rejects_zero_hourly_and_bad_env_entries
    (parseUrl : String → Option (String × Option String)) (config : Config)
    (h : config.autonomy.max_actions_per_hour = 0 ∨
      ∃ bad ∈ config.autonomy.shell_env_passthrough, is_valid_env_var_name bad = false) :
    ∃ msg, config.validate parseUrl = Except.error msg := by
  unfold Config.validate
  by_cases hhost : (trim_ascii config.gateway.host == "") = true
  · refine ⟨"gateway.host must not be empty", ?_⟩
    simp [hhost]
  · by_cases h0 : config.autonomy.max_actions_per_hour = 0
    · refine ⟨"autonomy.max_actions_per_hour must be greater than 0", ?_⟩
      simp [hhost, h0]
    · cases h with
      | inl hzero => exact absurd hzero h0
      | inr hbad =>
        obtain ⟨bad, hmem, hinv⟩ := hbad
        have hfind : (config.autonomy.shell_env_passthrough.find?
            (fun env_name => !is_valid_env_var_name env_name)).isSome = true :=
          List.find?_isSome.mpr ⟨bad, hmem, by simp [hinv]⟩
        obtain ⟨b, hb⟩ := Option.isSome_iff_exists.mp hfind
        refine ⟨"autonomy.shell_env_passthrough is invalid (" ++ b ++
          "); expected a name of ASCII letters, digits and underscores not starting with a digit", ?_⟩
        simp [hhost, h0, validate_env_passthrough, hb]

/-- C8 witness: the amended rejection applied to the concrete
configuration with a zero hourly action budget. -/
theorem validate_rejects_zero_hourly_witness :
    ∃ msg, Config.validate (fun _ => none)
      { Config.default with
          autonomy := { AutonomyConfig.default with max_actions_per_hour := 0 } } =
      Except.error msg :=
  validate_rejects_zero_hourly_and_bad_env_entries _ _ (Or.inl rfl)

/- Helper lemmas about the policy engine, shared across claims. -/

/-- When a pre-budget check fires, `evaluate` returns its decision
and leaves the budget untouched. -/
theorem evaluate_of_pre_budget_gate (cfg : AutonomyConfig) (pb : PathBoundary)
    (req : ActionRequest) (budget : BudgetState) (d : PolicyDecision)
    (h : pre_budget_gate cfg pb req = some d) :
    evaluate cfg pb req budget = (d, budget) := by
  simp [evaluate, h]

/-- A high-risk request with the high-risk block enabled is stopped
by one of the first four checks, always with a Deny. -/
theorem pre_budget_gate_high_risk (cfg : AutonomyConfig) (pb : PathBoundary)
    (req : ActionRequest)
    (hblock : cfg.block_high_risk_commands = true)
    (hrisk : req.risk_tier = RiskTier.high) :
    ∃ r, pre_budget_gate cfg pb req = some (PolicyDecision.deny r) := by
  unfold pre_budget_gate
  rw [hrisk, hblock]
  split
  · exact ⟨_, rfl⟩
  · split
    · exact ⟨_, rfl⟩
    · split
      · exact ⟨_, rfl⟩
      · split
        · exact ⟨_, rfl⟩
        · next h => simp at h

/-- A request whose resolved path fails the boundary check is stopped
by check 1 or check 2, always with a Deny. -/
theorem pre_budget_gate_bad_path (cfg : AutonomyConfig) (pb : PathBoundary)
    (req : ActionRequest) (p : CanonPath)
    (hpath : req.resolved_path = some p)
    (hperm : path_permitted pb p = false) :
    ∃ r, pre_budget_gate cfg pb req = some (PolicyDecision.deny r) := by
  unfold pre_budget_gate
  rw [hpath]
  split
  · exact ⟨_, rfl⟩
  · split
    · exact ⟨_, rfl⟩
    · next h => simp [hperm] at h

/-- C1: with `block_high_risk_commands = true`, every High-risk
request is denied by `evaluate`, regardless of autonomy level,
allowlist or auto-approve membership; the decision is a Deny, never
an approval prompt. -/
theorem high_risk_always_denied (cfg : AutonomyConfig) (pb : PathBoundary)
    (req : ActionRequest) (budget : BudgetState)
    (hblock : cfg.block_high_risk_commands = true)
    (hrisk : req.risk_tier = RiskTier.high) :
    ((evaluate cfg pb req budget).1).isDeny = true := by
  obtain ⟨r, hr⟩ := pre_budget_gate_high_risk cfg pb req hblock hrisk
  rw [evaluate_of_pre_budget_gate cfg pb req budget _ hr]
  rfl

/-- C1 witness: a concrete High-risk shell request against the
default autonomy configuration (block enabled, level Supervised,
command allowlisted, tool auto-approved) is denied. -/
theorem high_risk_always_denied_witness :
    ((evaluate AutonomyConfig.default (PathBoundary.mk ["ws"] [] [])
      (ActionRequest.mk "file_read" RiskTier.high none (some "git") 0)
      (BudgetState.mk 0 0)).1).isDeny = true :=
  high_risk_always_denied _ _ _ _ rfl rfl

/-- C2: a canonicalized path is permitted iff it is a descendant of
the workspace root or of an allowed root and under no forbidden
prefix; and every path-bearing request whose resolved path fails this
check is denied, with the budget untouched. -/
theorem path_boundary_enforced (cfg : AutonomyConfig) (pb : PathBoundary)
    (req : ActionRequest) (budget : BudgetState) (p : CanonPath) :
    (path_permitted pb p = true ↔
      ((is_descendant pb.workspace_root p = true ∨
        ∃ r ∈ pb.allowed_roots, is_descendant r p = true) ∧
       ∀ f ∈ pb.forbidden_paths, is_descendant f p = false)) ∧
    (req.resolved_path = some p → path_permitted pb p = false →
      ((evaluate cfg pb req budget).1).isDeny = true ∧
      (evaluate cfg pb req budget).2 = budget) := by
  constructor
  · simp [path_permitted, List.any_eq_true, Bool.not_eq_true]
  · intro hpath hperm
    obtain ⟨r, hr⟩ := pre_budget_gate_bad_path cfg pb req p hpath hperm
    rw [evaluate_of_pre_budget_gate cfg pb req budget _ hr]
    exact ⟨rfl, rfl⟩

/-- C2 witness: under the default autonomy configuration with
workspace root `/ws`, a request resolving to `/etc/passwd` is not
permitted and is denied with the budget untouched. -/
theorem path_boundary_enforced_witness :
    path_permitted (PathBoundary.mk ["ws"] [] []) ["etc", "passwd"] = false ∧
    ((evaluate AutonomyConfig.default (PathBoundary.mk ["ws"] [] [])
      (ActionRequest.mk "file_write" RiskTier.low (some ["etc", "passwd"]) none 0)
      (BudgetState.mk 0 0)).1).isDeny = true := by
  refine ⟨by decide, ?_⟩
  exact ((path_boundary_enforced AutonomyConfig.default (PathBoundary.mk ["ws"] [] [])
    (ActionRequest.mk "file_write" RiskTier.low (some ["etc", "passwd"]) none 0)
    (BudgetState.mk 0 0) ["etc", "passwd"]).2 rfl (by decide)).1

/-- C3: any non-Allow outcome of `evaluate` leaves the budget exactly
as it was; a request reaching the budget check that would exceed
either the hourly action limit or the daily cost limit is denied with
both counters rolled back; a request within both limits commits both
counters and is allowed. -/
theorem budget_rollback_and_commit (cfg : AutonomyConfig) (pb : PathBoundary)
    (req : ActionRequest) (budget : BudgetState) :
    ((evaluate cfg pb req budget).1 ≠ PolicyDecision.allow →
      (evaluate cfg pb req budget).2 = budget) ∧
    (pre_budget_gate cfg pb req = none →
      (cfg.max_actions_per_hour < budget.actions_this_hour + 1 ∨
        cfg.max_cost_per_day_cents < budget.cost_today_cents + req.estimated_cost_cents) →
      ((evaluate cfg pb req budget).1).isDeny = true ∧
      (evaluate cfg pb req budget).2 = budget) ∧
    (pre_budget_gate cfg pb req = none →
      budget.actions_this_hour + 1 ≤ cfg.max_actions_per_hour →
      budget.cost_today_cents + req.estimated_cost_cents ≤ cfg.max_cost_per_day_cents →
      evaluate cfg pb req budget =
        (PolicyDecision.allow,
         BudgetState.mk (budget.actions_this_hour + 1)
           (budget.cost_today_cents + req.estimated_cost_cents))) := by
  refine ⟨?_, ?_, ?_⟩
  · intro hne
    unfold evaluate at hne ⊢
    cases hpre : pre_budget_gate cfg pb req with
    | some d => simp [hpre]
    | none =>
      simp only [hpre] at hne ⊢
      by_cases h1 : cfg.max_actions_per_hour < budget.actions_this_hour + 1
      · simp [h1]
      · by_cases h2 : cfg.max_cost_per_day_cents <
            budget.cost_today_cents + req.estimated_cost_cents
        · simp [h1, h2]
        · simp [h1, h2] at hne
  · intro hpre hexceed
    unfold evaluate
    simp only [hpre]
    by_cases h1 : cfg.max_actions_per_hour < budget.actions_this_hour + 1
    · simp [h1, PolicyDecision.isDeny]
    · by_cases h2 : cfg.max_cost_per_day_cents <
          budget.cost_today_cents + req.estimated_cost_cents
      · simp [h1, h2, PolicyDecision.isDeny]
      · omega
  · intro hpre h1 h2
    unfold evaluate
    simp only [hpre]
    rw [if_neg (by omega), if_neg (by omega)]

/-- C3 witness: the spec scenario — `max_cost_per_day_cents = 500`
(the default), two Low-risk auto-approved requests of 300 cents: the
first is allowed and commits (hourly 1, cost 300); the second would
reach 600 and is denied with both counters unchanged. -/
theorem budget_rollback_and_commit_witness :
    evaluate AutonomyConfig.default (PathBoundary.mk ["ws"] [] [])
      (ActionRequest.mk "file_read" RiskTier.low none none 300) (BudgetState.mk 0 0) =
      (PolicyDecision.allow, BudgetState.mk 1 300) ∧
    ((evaluate AutonomyConfig.default (PathBoundary.mk ["ws"] [] [])
      (ActionRequest.mk "file_read" RiskTier.low none none 300)
      (BudgetState.mk 1 300)).1).isDeny = true ∧
    (evaluate AutonomyConfig.default (PathBoundary.mk ["ws"] [] [])
      (ActionRequest.mk "file_read" RiskTier.low none none 300)
      (BudgetState.mk 1 300)).2 = BudgetState.mk 1 300 := by
  refine ⟨?_, ?_⟩
  · exact (budget_rollback_and_commit AutonomyConfig.default (PathBoundary.mk ["ws"] [] [])
      (ActionRequest.mk "file_read" RiskTier.low none none 300)
      (BudgetState.mk 0 0)).2.2 (by decide) (by decide) (by decide)
  · exact (budget_rollback_and_commit AutonomyConfig.default (PathBoundary.mk ["ws"] [] [])
      (ActionRequest.mk "file_read" RiskTier.low none none 300)
      (BudgetState.mk 1 300)).2.1 (by decide) (Or.inr (by decide))

/-- C4: when pairing is not required the auth check passes without
examining any token; when it is required, the check passes iff the
presented bearer token (empty when no Authorization header) satisfies
`is_authenticated`, which holds iff the token is non-empty and in the
paired set; every failing request gets the 401 response and its
handler body never runs (the response is independent of the body). -/
theorem api_auth_gate (pairing : PairingGuard) (authorization : Option String) :
    (pairing.require_pairing = false → require_auth pairing authorization = Except.ok ()) ∧
    (pairing.require_pairing = true →
      (require_auth pairing authorization = Except.ok () ↔
        pairing.is_authenticated ((extract_bearer_token authorization).getD "") = true)) ∧
    (∀ token, pairing.is_authenticated token = true ↔
      (token ≠ "" ∧ token ∈ pairing.paired_tokens)) ∧
    (require_auth pairing authorization = Except.ok () ∨
      require_auth pairing authorization = Except.error unauthorized_error) ∧
    (∀ {β : Type} (f g : Unit → β),
      require_auth pairing authorization = Except.error unauthorized_error →
      run_api_handler pairing authorization f =
        ApiResponse.failure 401 unauthorized_error.message ∧
      run_api_handler pairing authorization f = run_api_handler pairing authorization g) := by
  refine ⟨?_, ?_, ?_, ?_, ?_⟩
  · intro h
    simp [require_auth, h]
  · intro h
    by_cases ha : pairing.is_authenticated ((extract_bearer_token authorization).getD "") = true
    · simp [require_auth, h, ha]
    · simp [require_auth, h, ha]
  · intro token
    simp [PairingGuard.is_authenticated, List.contains]
  · unfold require_auth
    by_cases h : pairing.require_pairing
    · by_cases ha : pairing.is_authenticated ((extract_bearer_token authorization).getD "") = true
      · left; simp [h, ha]
      · right; simp [h, ha]
    · left; simp [h]
  · intro β f g herr
    constructor
    · simp [run_api_handler, herr, unauthorized_error]
    · simp [run_api_handler, herr]

/-- C4 witness: pairing disabled passes with no token; a paired token
authenticates; with pairing required and no Authorization header the
status handler returns the 401 failure before any handler logic. -/
theorem api_auth_gate_witness :
    require_auth (PairingGuard.mk false []) none = Except.ok () ∧
    require_auth (PairingGuard.mk true ["tok"]) (some "Bearer tok") = Except.ok () ∧
    run_api_handler (PairingGuard.mk true []) none (fun _ => "status") =
      ApiResponse.failure 401 unauthorized_error.message := by
  refine ⟨(api_auth_gate (PairingGuard.mk false []) none).1 rfl, ?_, ?_⟩
  · exact ((api_auth_gate (PairingGuard.mk true ["tok"]) (some "Bearer tok")).2.1
      rfl).mpr (by decide)
  · exact ((api_auth_gate (PairingGuard.mk true []) none).2.2.2.2
      (fun _ => "status") (fun _ => "other") (by decide)).1

end ZeroClaw
